import Mathlib

/-!
Shallow embedding of the discovery / liveness-tracking core of the
Antigravity Shit-Chat mobile monitor (`server.js`).

The source is a single JavaScript/TypeScript file.  Pure helpers are
translated to Lean functions; the stateful discovery and polling loops
are translated to explicit state-passing functions whose remote
interactions (CDP calls, WebSocket connects) are supplied as oracle
functions, one per call site, so every remote outcome is quantified
over.  JavaScript 32-bit integer arithmetic is modelled on `Int` with an
explicit wrap to the signed 32-bit range.
-/

namespace Monitor

/-- Wrap an integer to the signed 32-bit range, as JavaScript `x & x`
(ToInt32) and `<<` do. -/
def toInt32 (n : Int) : Int :=
  let m := n % (2 ^ 32 : Int)
  if m < 2 ^ 31 then m else m - 2 ^ 32

/-- One step of the hash loop of `hashString`:
`hash = (hash << 5) - hash + char; hash = hash & hash;`.
`hash << 5` coerces through Int32, and `hash & hash` coerces the final
sum through Int32. -/
def hashStep (h : Int) (c : Nat) : Int :=
  toInt32 (toInt32 (h * 32) - h + c)

/-- Digit character for base-36 printing: `0`-`9` then `a`-`z`,
as JavaScript `Number.prototype.toString(36)` uses. -/
def digit36 (n : Nat) : Char :=
  if n < 10 then Char.ofNat (48 + n) else Char.ofNat (87 + n)

/-- Accumulate the base-36 digits of `n` (most significant first).
Structural recursion on a fuel argument (`n` itself is always enough
fuel, since `n / 36 < n` for `n ≠ 0`). -/
def toBase36Aux : Nat → Nat → List Char → List Char
  | 0, _, acc => acc
  | fuel + 1, n, acc =>
    if n = 0 then acc
    else toBase36Aux fuel (n / 36) (digit36 (n % 36) :: acc)

/-- Base-36 rendering of a natural number. -/
def toBase36 (n : Nat) : String :=
  if n = 0 then "0" else String.mk (toBase36Aux n n [])

/-- JavaScript `Number.prototype.toString(36)` on a 32-bit signed
integer: minus sign followed by the base-36 digits of the absolute
value. -/
def int32ToString36 (i : Int) : String :=
  if i < 0 then "-" ++ toBase36 i.natAbs else toBase36 i.natAbs

/-- Function `hashString` from the source: fold `hashStep` over the UTF-16 code
units of the string (code points coincide for the inputs considered
here), then print the 32-bit result in base 36. -/
def hashString (s : String) : String :=
  int32ToString36 (s.toList.foldl (fun h ch => hashStep h ch.toNat) 0)

/-! ## Data model

Structures mirror the TypeScript interfaces `Snapshot`, `Metadata`,
`CDPContext`, `CDPConnection`, `Cascade`, `CDPTarget`.  The WebSocket
handle of a connection is modelled by a numeric channel identifier
`wsId` plus its open/closed state `wsOpen` (`readyState === OPEN`);
`rootContextId : Option Nat` models `number | null`, where JavaScript
truthiness additionally treats `0` as unset. -/

/-- Model of `interface Snapshot`. -/
structure Snapshot where
  html : String
  bodyBg : String
  bodyColor : String
  deriving DecidableEq, Repr

/-- Model of `interface Metadata`. -/
structure Metadata where
  windowTitle : String
  chatTitle : String
  isActive : Bool
  contextId : Option Nat
  deriving DecidableEq, Repr

/-- Model of `interface CDPContext`. -/
structure CDPContext where
  id : Nat
  deriving DecidableEq, Repr

/-- Model of `interface CDPConnection`: the channel handle (`wsId`, `wsOpen`),
the known execution contexts, and the preferred root context. -/
structure CDPConnection where
  wsId : Nat
  wsOpen : Bool
  contexts : List CDPContext
  rootContextId : Option Nat
  deriving DecidableEq, Repr

/-- Model of `interface Cascade` (one Session Record). -/
structure Cascade where
  id : String
  cdp : CDPConnection
  metadata : Metadata
  snapshot : Option Snapshot
  css : String
  snapshotHash : Option String
  deriving DecidableEq, Repr

/-- Model of `interface CDPTarget` (one Endpoint Candidate from a scan). -/
structure CDPTarget where
  id : String
  title : String
  url : String
  webSocketDebuggerUrl : String
  port : Nat
  deriving DecidableEq, Repr

/-- JavaScript truthiness of the `number | null`-valued
`rootContextId` / `contextId` fields: `null`/`undefined` and `0` are
falsy. -/
def truthyCtx : Option Nat → Bool
  | none => false
  | some c => c ≠ 0

/-! ## Registry map

`cascades` is a JavaScript `Map<string, Cascade>`: insertion-ordered,
`set` overwrites in place when the key exists and appends otherwise.
Modelled as an association list. -/

/-- The registry a JavaScript `Map<string, Cascade>` is modelled by. -/
abbrev RegMap : Type := List (String × Cascade)

/-- Operation `Map.prototype.get`. -/
def mapGet (m : RegMap) (k : String) : Option Cascade :=
  (List.find? (fun p => p.1 = k) m).map (fun p => p.2)

/-- Operation `Map.prototype.has`. -/
def mapHas (m : RegMap) (k : String) : Bool :=
  (List.find? (fun p => p.1 = k) m).isSome

/-- Operation `Map.prototype.set`: overwrite in place when the key exists,
append otherwise. -/
def mapSet (m : RegMap) (k : String) (v : Cascade) : RegMap :=
  if List.any m (fun p => p.1 = k) then
    List.map (fun p => if p.1 = k then (k, v) else p) m
  else m ++ [(k, v)]

/-- Operation `Map.prototype.size`. -/
def mapSize (m : RegMap) : Nat := List.length m

/-! ## Transport session: passive inbound-message handling

`connectCDP` installs one `ws.on("message", ...)` listener that parses
each inbound frame and mutates `contexts` on the two
`Runtime.executionContext*` lifecycle events; everything else (call
responses, other events, unparsable frames) leaves `contexts`
untouched. -/

/-- Shape of one inbound frame as the listener in `connectCDP`
discriminates it: a frame that fails `JSON.parse`, a call response
(has an `id`, no `method`), one of the two lifecycle events, or any
other event. -/
inductive InboundMsg where
  | malformed : InboundMsg
  | callResponse (id : Nat) : InboundMsg
  | contextCreated (ctx : CDPContext) : InboundMsg
  | contextDestroyed (ctxId : Nat) : InboundMsg
  | otherEvent (method : String) : InboundMsg
  deriving DecidableEq, Repr

/-- Step `contexts.findIndex(c => c.id === ...)` followed by
`contexts.splice(idx, 1)` when found: remove the first context with the
given id, leave the list unchanged when none matches. -/
def removeFirstCtx : List CDPContext → Nat → List CDPContext
  | [], _ => []
  | c :: rest, i => if c.id = i then rest else c :: removeFirstCtx rest i

/-- The message listener of `connectCDP`, acting on the `contexts`
list. -/
def handleInbound (cs : List CDPContext) : InboundMsg → List CDPContext
  | InboundMsg.contextCreated c => cs ++ [c]
  | InboundMsg.contextDestroyed i => removeFirstCtx cs i
  | _ => cs

/-! ## Remote script invocation oracles

`cdp.call("Runtime.evaluate", ...)` either rejects (modelled `err`),
or resolves to a response whose `result?.value` is absent (`noVal`) or
present.  The oracle result carries the decoded `value` for the
specific script issued at that call site. -/

/-- Outcome of evaluating the metadata-extraction script in one
execution context: rejection, a response without a usable value, or
the script value `{found, chatTitle, isActive}` (with
`chatTitle`/`isActive` meaningful only when `found` is true). -/
inductive EvalOutcome where
  | err : EvalOutcome
  | noVal : EvalOutcome
  | val (found : Bool) (chatTitle : String) (isActive : Bool) : EvalOutcome
  deriving DecidableEq, Repr

/-- Whether the outcome is a response whose value has `found: true`
(the check `res.result?.value?.found`). -/
def isFound : EvalOutcome → Bool
  | EvalOutcome.val true _ _ => true
  | _ => false

/-- Result of a successful `extractMetadata`:
`{ found: true, chatTitle, isActive, contextId }`. -/
structure MetaVal where
  chatTitle : String
  isActive : Bool
  contextId : Option Nat
  deriving DecidableEq, Repr

/-- The `for (const ctx of cdp.contexts)` fallback loop of
`extractMetadata`: evaluate the script in each known context in stored
order; a rejected call is caught and skipped, a value with
`found: true` returns that context's metadata. -/
def scanContexts (ev : Nat → EvalOutcome) : List CDPContext → Option MetaVal
  | [] => none
  | c :: rest =>
    match ev c.id with
    | EvalOutcome.val true t a => some { chatTitle := t, isActive := a, contextId := some c.id }
    | _ => scanContexts ev rest

/-- Function `extractMetadata(cdp)`: try the preferred (`rootContextId`) context
first when truthy; a rejected call there clears `rootContextId`
(`catch (e) { cdp.rootContextId = null; }`), while a response without
`found: true` leaves it set; in either failure case fall back to
`scanContexts`.  Returns the metadata (or `none`) together with the
connection as mutated. -/
def extractMetadata (ev : Nat → EvalOutcome) (cdp : CDPConnection) :
    Option MetaVal × CDPConnection :=
  match cdp.rootContextId with
  | some r =>
    if r ≠ 0 then
      match ev r with
      | EvalOutcome.val true t a =>
        (some { chatTitle := t, isActive := a, contextId := some r }, cdp)
      | EvalOutcome.err =>
        let cdp' := { cdp with rootContextId := none }
        (scanContexts ev cdp'.contexts, cdp')
      | _ => (scanContexts ev cdp.contexts, cdp)
    else (scanContexts ev cdp.contexts, cdp)
  | none => (scanContexts ev cdp.contexts, cdp)

/-! ## Style and content capture -/

/-- Outcome of evaluating the CSS-gathering script: rejection, a
response without a usable `value.css`, or the gathered css string. -/
inductive CssOutcome where
  | err : CssOutcome
  | noVal : CssOutcome
  | val (css : String) : CssOutcome
  deriving DecidableEq, Repr

/-- Function `captureCSS(cdp)`: returns `""` when no truthy `rootContextId` is
set (no call is made), `""` on a rejected call, and
`result.result?.value?.css || ""` otherwise. -/
def captureCSS (out : CssOutcome) (cdp : CDPConnection) : String :=
  if truthyCtx cdp.rootContextId then
    match out with
    | CssOutcome.err => ""
    | CssOutcome.noVal => ""
    | CssOutcome.val css => css
  else ""

/-- Outcome of evaluating the HTML-capture script: rejection, a
response without a usable value, the script's
`{ error: 'cascade not found' }` marker, or a captured snapshot. -/
inductive HtmlOutcome where
  | err : HtmlOutcome
  | noVal : HtmlOutcome
  | valError : HtmlOutcome
  | valSnap (s : Snapshot) : HtmlOutcome
  deriving DecidableEq, Repr

/-- Function `captureHTML(cdp)`: returns `none` when no truthy `rootContextId`
is set (no call is made), `none` on a rejected call, `none` when the
value is absent or carries the `error` marker, and the snapshot
otherwise. -/
def captureHTML (out : HtmlOutcome) (cdp : CDPConnection) : Option Snapshot :=
  if truthyCtx cdp.rootContextId then
    match out with
    | HtmlOutcome.err => none
    | HtmlOutcome.noVal => none
    | HtmlOutcome.valError => none
    | HtmlOutcome.valSnap s => some s
  else none

/-! ## Message injection and action dispatch -/

/-- The structured `{ ok, message?, reason? }` value the injection and
action scripts produce and the helpers return. -/
structure ActionValue where
  ok : Bool
  message : Option String
  reason : Option String
  deriving DecidableEq, Repr

/-- Outcome of evaluating an injection or action script: rejection
(carrying `e.message`), a response without a usable value, or the
script's structured value. -/
inductive CallOutcome where
  | err (msg : String) : CallOutcome
  | noVal : CallOutcome
  | val (v : ActionValue) : CallOutcome
  deriving DecidableEq, Repr

/-- Function `injectMessage(cdp, text)`: the remote call's result value, or
`{ ok: false }` (no reason) when the response has no value, or
`{ ok: false, reason: e.message }` when the call rejects.  Never
raises. -/
def injectMessage (out : CallOutcome) : ActionValue :=
  match out with
  | CallOutcome.err m => { ok := false, message := none, reason := some m }
  | CallOutcome.noVal => { ok := false, message := none, reason := none }
  | CallOutcome.val v => v

/-- The keys of the `SCRIPTS` record in `performAction`. -/
def actionNames : List String := ["new", "history", "close"]

/-- Function `performAction(cdp, action)`: an action name outside `SCRIPTS`
fails immediately with `Unknown action: ...` and no remote call; a
known name issues the call and returns its value, with
`{ ok: false, reason: 'No result' }` for a value-less response and
`{ ok: false, reason: e.message }` for a rejection.  The Bool records
whether a remote call was issued. -/
def performAction (out : CallOutcome) (action : String) : ActionValue × Bool :=
  if List.contains actionNames action then
    (match out with
     | CallOutcome.err m => { ok := false, message := none, reason := some m }
     | CallOutcome.noVal => { ok := false, message := none, reason := some "No result" }
     | CallOutcome.val v => v, true)
  else ({ ok := false, message := none, reason := some ("Unknown action: " ++ action) }, false)

/-! ## Snapshot poller -/

/-- Notifications fanned out over the WebSocket server: a per-record
`snapshot_update` carrying only the cascade id, and the membership
`cascade_list` carrying each record's public fields
`{id, title, window, active}`. -/
inductive BroadcastMsg where
  | snapshotUpdate (cascadeId : String) : BroadcastMsg
  | cascadeList (entries : List (String × String × String × Bool)) : BroadcastMsg
  deriving DecidableEq, Repr

/-- One record's step of `updateSnapshots`: `captureHTML`; on `none`
do nothing; on a snapshot, hash it and, exactly when the hash differs
from the cached `snapshotHash`, store the snapshot and hash and emit
`snapshot_update` with the record's id. -/
def pollStep (cap : Option Snapshot) (c : Cascade) : Cascade × List BroadcastMsg :=
  match cap with
  | none => (c, [])
  | some snap =>
    let h := hashString snap.html
    if some h ≠ c.snapshotHash then
      ({ c with snapshot := some snap, snapshotHash := some h },
       [BroadcastMsg.snapshotUpdate c.id])
    else (c, [])

/-- Function `updateSnapshots()`: apply `pollStep` to every registered record
(the capture outcome supplied per record id), collecting the emitted
notifications. -/
def updateSnapshots (cap : String → Option Snapshot) (m : RegMap) :
    RegMap × List BroadcastMsg :=
  (List.map (fun p => ((p.1, (pollStep (cap p.1) p.2).1)) ) m,
   List.flatten (List.map (fun p => (pollStep (cap p.1) p.2).2) m))

/-! ## Discovery / reconciliation

`discover()` scans targets, computes each candidate's stable id with
`hashString`, reuses open live records whose metadata still refreshes,
opens fresh connections otherwise, closes what is gone, swaps the
registry, and broadcasts the membership list exactly when the registry
size changed.  Remote interactions are supplied per target: an eval
oracle for the metadata refresh on the existing connection, and a
connection attempt (fresh connection, its eval oracle, its css
outcome) for the new-connection path. -/

/-- The stable identifier `discover` derives for a candidate:
`hashString(target.webSocketDebuggerUrl)`. -/
def candidateId (t : CDPTarget) : String := hashString t.webSocketDebuggerUrl

/-- A successful `connectCDP` for one target: the fresh connection,
the eval oracle its contexts answer with, and the outcome of the css
capture. -/
structure ConnAttempt where
  conn : CDPConnection
  ev : Nat → EvalOutcome
  cssOut : CssOutcome

/-- Remote behavior during one discovery cycle, per target. -/
structure DiscoverEnv where
  refreshEv : CDPTarget → Nat → EvalOutcome
  connectNew : CDPTarget → Option ConnAttempt

/-- Assignment `existing.metadata = { ...existing.metadata, ...meta }`:
`windowTitle` is kept, the rest overwritten by the extraction
result. -/
def mergeMetadata (old : Metadata) (m : MetaVal) : Metadata :=
  { windowTitle := old.windowTitle, chatTitle := m.chatTitle,
    isActive := m.isActive, contextId := m.contextId }

/-- Statement `if (meta.contextId) cdp.rootContextId = meta.contextId`. -/
def applyRootCtx (conn : CDPConnection) (cid : Option Nat) : CDPConnection :=
  if truthyCtx cid then { conn with rootContextId := cid } else conn

/-- The `// New connection` block of `discover` for one target:
connect (a throw skips the target), extract metadata (success creates
the record, with css captured once; failure closes the fresh
channel). -/
def tryNewConnection (env : DiscoverEnv) (t : CDPTarget)
    (acc : RegMap) (closedF : List Nat) : RegMap × List Nat :=
  match env.connectNew t with
  | none => (acc, closedF)
  | some a =>
    match extractMetadata a.ev a.conn with
    | (some m, conn₁) =>
      let conn₂ := applyRootCtx conn₁ m.contextId
      let c : Cascade :=
        { id := candidateId t, cdp := conn₂,
          metadata := { windowTitle := t.title, chatTitle := m.chatTitle,
                        isActive := m.isActive, contextId := none },
          snapshot := none, css := captureCSS a.cssOut conn₂, snapshotHash := none }
      (mapSet acc (candidateId t) c, closedF)
    | (none, conn₁) => (acc, conn₁.wsId :: closedF)

/-- One iteration of the `for (const target of allTargets)` loop of
`discover`: reuse the existing record when its id is held, its channel
open and its metadata refresh succeeds; fall through to a fresh
connection otherwise. -/
def discoverStep (env : DiscoverEnv) (old : RegMap)
    (acc : RegMap × List Nat) (t : CDPTarget) : RegMap × List Nat :=
  match mapGet old (candidateId t) with
  | some existing =>
    if existing.cdp.wsOpen then
      match extractMetadata (env.refreshEv t) existing.cdp with
      | (some m, conn₁) =>
        let conn₂ := applyRootCtx conn₁ m.contextId
        let c := { existing with metadata := mergeMetadata existing.metadata m, cdp := conn₂ }
        (mapSet acc.1 (candidateId t) c, acc.2)
      | (none, _) => tryNewConnection env t acc.1 acc.2
    else tryNewConnection env t acc.1 acc.2
  | none => tryNewConnection env t acc.1 acc.2

/-- The whole connect/refresh loop over the scanned targets. -/
def runTargets (env : DiscoverEnv) (old : RegMap) :
    List CDPTarget → RegMap × List Nat → RegMap × List Nat
  | [], acc => acc
  | t :: rest, acc => runTargets env old rest (discoverStep env old acc t)

/-- What one `discover()` cycle produces: the reconciled registry (the
atomic replacement of `cascades`), the fresh channels closed inside the
loop, the channels closed by the `// 3. Cleanup old` step, and the
notifications broadcast. -/
structure DiscoverResult where
  newCascades : RegMap
  closedFresh : List Nat
  closedCleanup : List Nat
  broadcasts : List BroadcastMsg

/-- The payload `broadcastCascadeList` sends:
`{id, title, window, active}` per record. -/
def cascadeListEntries (m : RegMap) : List (String × String × String × Bool) :=
  List.map (fun p => (p.2.id, p.2.metadata.chatTitle,
                      p.2.metadata.windowTitle, p.2.metadata.isActive)) m

/-- Function `discover()`: run the loop from an empty `newCascades`, close every
previously-held channel whose id is not in the reconciled map, swap,
and broadcast the membership list iff `cascades.size !== newCascades.size`. -/
def discover (env : DiscoverEnv) (old : RegMap) (targets : List CDPTarget) :
    DiscoverResult :=
  let r := runTargets env old targets ([], [])
  let closedCleanup :=
    List.map (fun p => p.2.cdp.wsId)
      (List.filter (fun p => !(mapHas r.1 p.1)) old)
  let changed := mapSize old ≠ mapSize r.1
  { newCascades := r.1, closedFresh := r.2, closedCleanup := closedCleanup,
    broadcasts := if changed then [BroadcastMsg.cascadeList (cascadeListEntries r.1)] else [] }

/-! ## HTTP action endpoint -/

/-- The responses the `/action/:id/:action` route can produce. -/
inductive HttpResponse where
  | notFound : HttpResponse
  | serverError (v : ActionValue) : HttpResponse
  | success (message : Option String) : HttpResponse
  deriving DecidableEq, Repr

/-- The `/action/:id/:action` handler: a 404 when the id is not
registered (before any remote call), otherwise `performAction` and a
200/500 according to its `ok`.  The Bool records whether a remote call
was issued. -/
def actionEndpoint (m : RegMap) (idp action : String) (out : CallOutcome) :
    HttpResponse × Bool :=
  match mapGet m idp with
  | none => (HttpResponse.notFound, false)
  | some _ =>
    let r := performAction out action
    if r.1.ok then (HttpResponse.success r.1.message, r.2)
    else (HttpResponse.serverError r.1, r.2)

/-! ## Theorems -/

/-- C1: the stable identifier of an endpoint is a pure, deterministic
function of its connection address string — any two candidates with the
same `webSocketDebuggerUrl`, in any cycles or runs, derive the same
identifier, and the derivation reads no other state (it depends on no
other field and on no registry state). -/
theorem C1_identifier_deterministic (t₁ t₂ : CDPTarget)
    (h : t₁.webSocketDebuggerUrl = t₂.webSocketDebuggerUrl) :
    candidateId t₁ = candidateId t₂ := by
  unfold candidateId
  rw [h]

def targetW1 : CDPTarget :=
  { id := "a", title := "win one", url := "u1",
    webSocketDebuggerUrl := "ws://127.0.0.1:9000/devtools/x", port := 9000 }

def targetW2 : CDPTarget :=
  { id := "b", title := "win two", url := "u2",
    webSocketDebuggerUrl := "ws://127.0.0.1:9000/devtools/x", port := 9001 }

theorem C1_identifier_deterministic_witness :
    targetW1.webSocketDebuggerUrl = targetW2.webSocketDebuggerUrl ∧
    candidateId targetW1 = candidateId targetW2 :=
  ⟨rfl, C1_identifier_deterministic targetW1 targetW2 rfl⟩

/-- C2: one polling step per record: a failed capture leaves snapshot
and fingerprint unchanged and emits nothing; a successful capture emits
a `snapshot_update` carrying only the record's id exactly when the
fingerprint of the new content differs from the cached one, replacing
snapshot and fingerprint exactly in that case; re-capturing
byte-identical content immediately after emits nothing. -/
theorem C2_poll_change_detection (c : Cascade) (snap : Snapshot) :
    pollStep none c = (c, []) ∧
    pollStep (some snap) c =
      (if some (hashString snap.html) ≠ c.snapshotHash then
        ({ c with snapshot := some snap, snapshotHash := some (hashString snap.html) },
         [BroadcastMsg.snapshotUpdate c.id])
       else (c, [])) ∧
    (pollStep (some snap) (pollStep (some snap) c).1).2 = [] := by
  refine ⟨rfl, rfl, ?_⟩
  unfold pollStep
  by_cases h : some (hashString snap.html) ≠ c.snapshotHash
  · simp [h]
  · push_neg at h
    simp [h]

/-- C6: no invoker operation raises: for every remote outcome —
rejection, value-less response, structured value — `injectMessage` and
`performAction` return a structured `{ok, reason?}` value (with
`ok = false` and, for `performAction`, a populated reason on every
failure), and the capture operations return `none` resp. `""` on every
failure, for every connection state and action name. -/
theorem C6_invoker_never_raises (m a : String) (v : ActionValue)
    (cdp : CDPConnection) :
    injectMessage (CallOutcome.err m) = { ok := false, message := none, reason := some m } ∧
    injectMessage CallOutcome.noVal = { ok := false, message := none, reason := none } ∧
    injectMessage (CallOutcome.val v) = v ∧
    (performAction (CallOutcome.err m) a).1.ok = false ∧
    (performAction (CallOutcome.err m) a).1.reason.isSome = true ∧
    (performAction CallOutcome.noVal a).1.ok = false ∧
    (performAction CallOutcome.noVal a).1.reason.isSome = true ∧
    captureHTML HtmlOutcome.err cdp = none ∧
    captureHTML HtmlOutcome.noVal cdp = none ∧
    captureHTML HtmlOutcome.valError cdp = none ∧
    captureCSS CssOutcome.err cdp = "" ∧
    captureCSS CssOutcome.noVal cdp = "" := by
  refine ⟨rfl, rfl, rfl, ?_, ?_, ?_, ?_, ?_, ?_, ?_, ?_, ?_⟩ <;>
    first
      | (unfold performAction; split <;> rfl)
      | (unfold captureHTML; split <;> rfl)
      | (unfold captureCSS; split <;> rfl)

/-- C8: an action against an unregistered id answers 404 without any
remote call; a registered id with an action name outside
`{new, history, close}` answers an unrecognized-action failure, also
without any remote call. -/
theorem C8_action_guards (m : RegMap) (idp a : String) (out : CallOutcome)
    (c : Cascade) :
    (mapGet m idp = none →
      actionEndpoint m idp a out = (HttpResponse.notFound, false)) ∧
    (mapGet m idp = some c → List.contains actionNames a = false →
      actionEndpoint m idp a out =
        (HttpResponse.serverError
          { ok := false, message := none, reason := some ("Unknown action: " ++ a) },
         false)) := by
  constructor
  · intro h
    unfold actionEndpoint
    rw [h]
  · intro h hc
    unfold actionEndpoint
    rw [h]
    unfold performAction
    rw [hc]
    rfl

def sampleConn : CDPConnection :=
  { wsId := 1, wsOpen := true, contexts := [], rootContextId := none }

def sampleCascade : Cascade :=
  { id := "x", cdp := sampleConn,
    metadata := { windowTitle := "w", chatTitle := "t", isActive := false, contextId := none },
    snapshot := none, css := "", snapshotHash := none }

theorem C8_action_guards_witness :
    actionEndpoint [] "x" "new" CallOutcome.noVal = (HttpResponse.notFound, false) ∧
    actionEndpoint [("x", sampleCascade)] "x" "frobnicate" CallOutcome.noVal =
      (HttpResponse.serverError
        { ok := false, message := none, reason := some ("Unknown action: " ++ "frobnicate") },
       false) :=
  ⟨(C8_action_guards [] "x" "new" CallOutcome.noVal sampleCascade).1 rfl,
   (C8_action_guards [("x", sampleCascade)] "x" "frobnicate" CallOutcome.noVal
      sampleCascade).2 rfl rfl⟩

/-- Concrete environment for the collision run: both targets connect
successfully and their single context answers `found: true`. -/
def envC9 : DiscoverEnv :=
  { refreshEv := fun _ _ => EvalOutcome.err,
    connectNew := fun t =>
      some { conn := { wsId := if t.webSocketDebuggerUrl = "Aa" then 1 else 2,
                       wsOpen := true, contexts := [{ id := 1 }], rootContextId := none },
             ev := fun _ => EvalOutcome.val true "T" false,
             cssOut := CssOutcome.val "" } }

def targetAa : CDPTarget :=
  { id := "tA", title := "workbench A", url := "uA", webSocketDebuggerUrl := "Aa", port := 9000 }

def targetBB : CDPTarget :=
  { id := "tB", title := "workbench B", url := "uB", webSocketDebuggerUrl := "BB", port := 9001 }

/-- C9: `hashString` is not injective — the distinct addresses `"Aa"`
and `"BB"` hash to the same identifier — and a discovery cycle over two
distinct endpoints at those addresses reconciles them into a single
Session Record. -/
theorem C9_hash_collision :
    hashString "Aa" = hashString "BB" ∧ "Aa" ≠ "BB" ∧
    candidateId targetAa = candidateId targetBB ∧
    mapSize (discover envC9 [] [targetAa, targetBB]).newCascades = 1 := by
  refine ⟨by decide, by decide, by decide, ?_⟩
  rfl

/-- Helper `removeFirstCtx` only deletes (the first match): the result is a
sublist of the input, so order and any distinctness are preserved. -/
theorem removeFirstCtx_sublist (cs : List CDPContext) (i : Nat) :
    List.Sublist (removeFirstCtx cs i) cs := by
  induction cs with
  | nil => exact List.Sublist.refl _
  | cons c rest ih =>
    unfold removeFirstCtx
    by_cases h : c.id = i
    · simp only [h, if_pos rfl]
      exact List.sublist_cons_self c rest
    · simp only [if_neg h]
      exact List.Sublist.cons₂ c ih

/-- When no known context has the destroyed id, `findIndex` misses and
the list is left unchanged. -/
theorem removeFirstCtx_not_mem (cs : List CDPContext) (i : Nat)
    (h : i ∉ List.map CDPContext.id cs) : removeFirstCtx cs i = cs := by
  induction cs with
  | nil => rfl
  | cons c rest ih =>
    simp only [List.map_cons, List.mem_cons] at h
    push_neg at h
    unfold removeFirstCtx
    rw [if_neg (fun hc => h.1 hc.symm), ih h.2]

/-- C7 counterexample: the handler does not enforce distinctness — a
second `executionContextCreated` event carrying an id already present
appends a duplicate entry, so "the set remains an insertion-ordered set
of distinct context identifiers" fails on this event stream. -/
theorem C7_counterexample :
    (List.map CDPContext.id [{ id := 1 }]).Nodup ∧
    handleInbound [{ id := 1 }] (InboundMsg.contextCreated { id := 1 })
      = [{ id := 1 }, { id := 1 }] ∧
    ¬ (List.map CDPContext.id
        (handleInbound [{ id := 1 }] (InboundMsg.contextCreated { id := 1 }))).Nodup := by
  refine ⟨by decide, rfl, by decide⟩

/-- C7 amended: the known-context set is mutated only by the two
lifecycle events — context-created appends at the end, context-destroyed
removes the first context with the matching identifier (no change when
none matches) — and every other inbound message (call responses, other
events, unparsable frames) leaves it unchanged; identifiers stay
distinct provided each created event carries an id not already present,
since the handler itself does not deduplicate. -/
theorem C7_context_tracking (cs : List CDPContext) (c : CDPContext)
    (i n : Nat) (s : String) :
    handleInbound cs (InboundMsg.contextCreated c) = cs ++ [c] ∧
    handleInbound cs (InboundMsg.contextDestroyed i) = removeFirstCtx cs i ∧
    List.Sublist (removeFirstCtx cs i) cs ∧
    (i ∉ List.map CDPContext.id cs → removeFirstCtx cs i = cs) ∧
    handleInbound cs InboundMsg.malformed = cs ∧
    handleInbound cs (InboundMsg.callResponse n) = cs ∧
    handleInbound cs (InboundMsg.otherEvent s) = cs ∧
    ((List.map CDPContext.id cs).Nodup → c.id ∉ List.map CDPContext.id cs →
      (List.map CDPContext.id (handleInbound cs (InboundMsg.contextCreated c))).Nodup) ∧
    ((List.map CDPContext.id cs).Nodup →
      (List.map CDPContext.id (handleInbound cs (InboundMsg.contextDestroyed i))).Nodup) := by
  refine ⟨rfl, rfl, removeFirstCtx_sublist cs i, removeFirstCtx_not_mem cs i,
          rfl, rfl, rfl, ?_, ?_⟩
  · intro hnd hfresh
    show (List.map CDPContext.id (cs ++ [c])).Nodup
    rw [List.map_append]
    simp [List.nodup_append, hnd, hfresh]
  · intro hnd
    exact hnd.sublist ((removeFirstCtx_sublist cs i).map CDPContext.id)

theorem C7_context_tracking_witness :
    (List.map CDPContext.id
      (handleInbound [{ id := 1 }, { id := 2 }]
        (InboundMsg.contextCreated { id := 3 }))).Nodup ∧
    (List.map CDPContext.id
      (handleInbound [{ id := 1 }, { id := 2 }]
        (InboundMsg.contextDestroyed 1))).Nodup :=
  ⟨(C7_context_tracking [{ id := 1 }, { id := 2 }] { id := 3 } 1 0 "x").2.2.2.2.2.2.2.1
     (by decide) (by decide),
   (C7_context_tracking [{ id := 1 }, { id := 2 }] { id := 3 } 1 0 "x").2.2.2.2.2.2.2.2
     (by decide)⟩

/-- The metadata `scanContexts` builds from a `found: true` outcome in
context `cid`. -/
def metaOfOutcome (o : EvalOutcome) (cid : Nat) : MetaVal :=
  match o with
  | EvalOutcome.val _ t a => { chatTitle := t, isActive := a, contextId := some cid }
  | _ => { chatTitle := "", isActive := false, contextId := some cid }

/-- The fallback loop returns the metadata of the first known context
whose evaluation reports the root marker, in stored order. -/
theorem scanContexts_eq_find (ev : Nat → EvalOutcome) (l : List CDPContext) :
    scanContexts ev l =
      (List.find? (fun c => isFound (ev c.id)) l).map
        (fun c => metaOfOutcome (ev c.id) c.id) := by
  induction l with
  | nil => rfl
  | cons c rest ih =>
    rw [List.find?_cons]
    rcases h : ev c.id with _ | _ | ⟨found, t, a⟩
    · unfold scanContexts
      rw [h]
      simp [isFound, h, ih]
    · unfold scanContexts
      rw [h]
      simp [isFound, h, ih]
    · cases found with
      | true =>
        unfold scanContexts
        rw [h]
        simp [isFound, h, metaOfOutcome]
      | false =>
        unfold scanContexts
        rw [h]
        simp [isFound, h, ih]

/-- C5 counterexample: with the preference set to context 1 and the
evaluation there answering `found: false` (marker absent, call not
rejected), the preferred attempt fails — the extraction falls back and
returns nothing — yet the preference is NOT cleared, contradicting the
claim that a failed preferred attempt clears it; only a rejected call
clears it. -/
theorem C5_counterexample :
    (extractMetadata (fun _ => EvalOutcome.val false "" false)
      { wsId := 1, wsOpen := true, contexts := [], rootContextId := some 1 }).1 = none ∧
    (extractMetadata (fun _ => EvalOutcome.val false "" false)
      { wsId := 1, wsOpen := true, contexts := [], rootContextId := some 1 }).2.rootContextId
      = some 1 :=
  ⟨rfl, rfl⟩

/-- C5 amended: extraction tries the preferred context first when set
(and nonzero), returning its metadata on success; a rejected call there
clears the preference while a not-found answer leaves it set; in either
failure case (or with no preference) it scans every known context in
stored order and returns the metadata of the first one reporting the
root marker, and `none` when no known context reports it. -/
theorem C5_extract_metadata (ev : Nat → EvalOutcome) (cdp : CDPConnection)
    (r : Nat) (t : String) (a : Bool) :
    (cdp.rootContextId = some r → r ≠ 0 → ev r = EvalOutcome.val true t a →
      extractMetadata ev cdp =
        (some { chatTitle := t, isActive := a, contextId := some r }, cdp)) ∧
    (cdp.rootContextId = some r → r ≠ 0 → ev r = EvalOutcome.err →
      extractMetadata ev cdp =
        (scanContexts ev cdp.contexts, { cdp with rootContextId := none })) ∧
    (cdp.rootContextId = some r → r ≠ 0 → isFound (ev r) = false →
      ev r ≠ EvalOutcome.err →
      extractMetadata ev cdp = (scanContexts ev cdp.contexts, cdp)) ∧
    (cdp.rootContextId = none →
      extractMetadata ev cdp = (scanContexts ev cdp.contexts, cdp)) ∧
    scanContexts ev cdp.contexts =
      (List.find? (fun c => isFound (ev c.id)) cdp.contexts).map
        (fun c => metaOfOutcome (ev c.id) c.id) ∧
    (scanContexts ev cdp.contexts = none ↔
      ∀ c ∈ cdp.contexts, isFound (ev c.id) = false) := by
  refine ⟨?_, ?_, ?_, ?_, scanContexts_eq_find ev cdp.contexts, ?_⟩
  · intro h1 h2 h3
    unfold extractMetadata
    rw [h1]
    simp only [if_pos h2, h3]
  · intro h1 h2 h3
    unfold extractMetadata
    rw [h1]
    simp only [if_pos h2, h3]
  · intro h1 h2 h3 h4
    unfold extractMetadata
    rw [h1]
    simp only [if_pos h2]
    rcases h : ev r with _ | _ | ⟨found, t', a'⟩
    · exact absurd h h4
    · rfl
    · cases found with
      | true => rw [h] at h3; exact absurd h3 (by simp [isFound])
      | false => rfl
  · intro h1
    unfold extractMetadata
    rw [h1]
  · rw [scanContexts_eq_find]
    simp [List.find?_eq_none]

def cdpC5w : CDPConnection :=
  { wsId := 1, wsOpen := true, contexts := [{ id := 2 }], rootContextId := some 1 }

def evC5w : Nat → EvalOutcome := fun n =>
  if n = 2 then EvalOutcome.val true "T" true else EvalOutcome.err

theorem C5_extract_metadata_witness :
    extractMetadata evC5w cdpC5w =
      (scanContexts evC5w cdpC5w.contexts, { cdpC5w with rootContextId := none }) :=
  (C5_extract_metadata evC5w cdpC5w 1 "T" true).2.1 rfl (by decide) rfl

/-! ### Registry lemmas for the discovery cycle -/

theorem discover_newCascades (env : DiscoverEnv) (old : RegMap)
    (targets : List CDPTarget) :
    (discover env old targets).newCascades = (runTargets env old targets ([], [])).1 := rfl

theorem discover_closedCleanup (env : DiscoverEnv) (old : RegMap)
    (targets : List CDPTarget) :
    (discover env old targets).closedCleanup =
      List.map (fun p => p.2.cdp.wsId)
        (List.filter (fun p => !(mapHas (runTargets env old targets ([], [])).1 p.1)) old) := rfl

theorem discover_broadcasts (env : DiscoverEnv) (old : RegMap)
    (targets : List CDPTarget) :
    (discover env old targets).broadcasts =
      (if mapSize old ≠ mapSize (runTargets env old targets ([], [])).1
       then [BroadcastMsg.cascadeList
               (cascadeListEntries (runTargets env old targets ([], [])).1)]
       else []) := rfl

/-- A key is present in a registry iff some held pair carries it. -/
theorem mapHas_iff (m : RegMap) (k : String) :
    mapHas m k = true ↔ ∃ p ∈ m, p.1 = k := by
  unfold mapHas
  rw [List.find?_isSome]
  simp

/-- Helper `mapSet` adds no key other than the one written. -/
theorem mapHas_mapSet_true (m : RegMap) (k : String) (v : Cascade) (k' : String)
    (h : mapHas (mapSet m k v) k' = true) :
    mapHas m k' = true ∨ k' = k := by
  rw [mapHas_iff] at h
  unfold mapSet at h
  split at h
  · rcases h with ⟨p, hp, hpk⟩
    rcases List.mem_map.mp hp with ⟨q, hq, hfq⟩
    by_cases hqk : q.1 = k
    · rw [if_pos hqk] at hfq
      right
      rw [← hpk, ← hfq]
    · rw [if_neg hqk] at hfq
      exact Or.inl ((mapHas_iff m k').mpr ⟨q, hq, by rw [hfq]; exact hpk⟩)
  · rcases h with ⟨p, hp, hpk⟩
    rcases List.mem_append.mp hp with hp' | hp'
    · exact Or.inl ((mapHas_iff m k').mpr ⟨p, hp', hpk⟩)
    · have hpe : p = (k, v) := List.mem_singleton.mp hp'
      right
      rw [← hpk, hpe]

/-- The new-connection path registers at most the candidate's own
id. -/
theorem tryNewConnection_has (env : DiscoverEnv) (t : CDPTarget)
    (acc : RegMap) (f : List Nat) (id : String)
    (h : mapHas (tryNewConnection env t acc f).1 id = true) :
    mapHas acc id = true ∨ id = candidateId t := by
  unfold tryNewConnection at h
  split at h
  · exact Or.inl h
  · split at h
    · exact mapHas_mapSet_true acc (candidateId t) _ id h
    · exact Or.inl h

/-- One loop iteration registers at most the candidate's own id on top
of what is already accumulated. -/
theorem discoverStep_has (env : DiscoverEnv) (old : RegMap)
    (acc : RegMap × List Nat) (t : CDPTarget) (id : String)
    (h : mapHas (discoverStep env old acc t).1 id = true) :
    mapHas acc.1 id = true ∨ id = candidateId t := by
  unfold discoverStep at h
  split at h
  · split at h
    · split at h
      · exact mapHas_mapSet_true acc.1 (candidateId t) _ id h
      · exact tryNewConnection_has env t acc.1 acc.2 id h
    · exact tryNewConnection_has env t acc.1 acc.2 id h
  · exact tryNewConnection_has env t acc.1 acc.2 id h

/-- Every key of the reconciled map is a key of the accumulator or the
identifier of some scanned candidate. -/
theorem runTargets_has (env : DiscoverEnv) (old : RegMap) :
    ∀ (ts : List CDPTarget) (acc : RegMap × List Nat) (id : String),
      mapHas (runTargets env old ts acc).1 id = true →
      mapHas acc.1 id = true ∨ id ∈ List.map candidateId ts := by
  intro ts
  induction ts with
  | nil => exact fun acc id h => Or.inl h
  | cons t rest ih =>
    intro acc id h
    rcases ih (discoverStep env old acc t) id h with h' | h'
    · rcases discoverStep_has env old acc t id h' with h'' | h''
      · exact Or.inl h''
      · exact Or.inr (by simp [h''])
    · exact Or.inr (by simp [h'])

/-- C3: a held Session Record whose identifier is absent from the
cycle's candidate list is gone from the reconciled registry and its
channel is closed by the cleanup step. -/
theorem C3_reconciliation_eviction (env : DiscoverEnv) (old : RegMap)
    (targets : List CDPTarget) (id : String) (c : Cascade)
    (hmem : (id, c) ∈ old) (habs : id ∉ List.map candidateId targets) :
    mapHas (discover env old targets).newCascades id = false ∧
    c.cdp.wsId ∈ (discover env old targets).closedCleanup := by
  have hnot : mapHas (runTargets env old targets ([], [])).1 id = false := by
    cases hh : mapHas (runTargets env old targets ([], [])).1 id
    · rfl
    · rcases runTargets_has env old targets ([], []) id hh with h | h
      · exact absurd h (by simp [mapHas])
      · exact absurd h habs
  refine ⟨by rw [discover_newCascades]; exact hnot, ?_⟩
  rw [discover_closedCleanup]
  refine List.mem_map.mpr ⟨(id, c), List.mem_filter.mpr ⟨hmem, ?_⟩, rfl⟩
  simp [hnot]

def envTrivial : DiscoverEnv :=
  { refreshEv := fun _ _ => EvalOutcome.err, connectNew := fun _ => none }

theorem C3_reconciliation_eviction_witness :
    mapHas (discover envTrivial [("k", sampleCascade)] []).newCascades "k" = false ∧
    sampleCascade.cdp.wsId ∈ (discover envTrivial [("k", sampleCascade)] []).closedCleanup :=
  C3_reconciliation_eviction envTrivial [("k", sampleCascade)] [] "k" sampleCascade
    (by decide) (by decide)

/-- Environment in which every connection attempt succeeds (fresh
channel 7, one context answering `found: true`). -/
def envC4 : DiscoverEnv :=
  { refreshEv := fun _ _ => EvalOutcome.err,
    connectNew := fun _ =>
      some { conn := { wsId := 7, wsOpen := true, contexts := [{ id := 1 }],
                       rootContextId := none },
             ev := fun _ => EvalOutcome.val true "T" false,
             cssOut := CssOutcome.noVal } }

def C4old : RegMap := [("zzz", sampleCascade)]

/-- C4: the cycle's result replaces the registry wholesale, and the
membership notification is emitted iff the registry size changed across
the swap — including concretely: a cycle that swaps one identifier for
another (identity changes, count equal) emits no membership
notification. -/
theorem C4_membership_signal (env : DiscoverEnv) (old : RegMap)
    (targets : List CDPTarget) :
    ((discover env old targets).broadcasts ≠ [] ↔
      mapSize old ≠ mapSize (discover env old targets).newCascades) ∧
    (mapSize old ≠ mapSize (discover env old targets).newCascades →
      (discover env old targets).broadcasts =
        [BroadcastMsg.cascadeList (cascadeListEntries (discover env old targets).newCascades)]) ∧
    (mapSize old = mapSize (discover env old targets).newCascades →
      (discover env old targets).broadcasts = []) ∧
    mapSize C4old = mapSize (discover envC4 C4old [targetAa]).newCascades ∧
    mapHas C4old "zzz" = true ∧
    mapHas (discover envC4 C4old [targetAa]).newCascades "zzz" = false ∧
    mapHas (discover envC4 C4old [targetAa]).newCascades (candidateId targetAa) = true ∧
    (discover envC4 C4old [targetAa]).broadcasts = [] := by
  refine ⟨?_, ?_, ?_, rfl, rfl, rfl, ?_, ?_⟩
  · rw [discover_broadcasts, discover_newCascades]
    by_cases h : mapSize old = mapSize (runTargets env old targets ([], [])).1
    · simp [h]
    · simp [h]
  · intro h
    rw [discover_newCascades] at h
    rw [discover_broadcasts, discover_newCascades, if_pos h]
  · intro h
    rw [discover_newCascades] at h
    rw [discover_broadcasts, if_neg (fun hn => hn h)]
  · rfl
  · rfl

theorem C4_membership_signal_witness :
    (discover envC4 C4old [targetAa]).broadcasts = [] :=
  (C4_membership_signal envC4 C4old [targetAa]).2.2.1 rfl

/-- C10: the cleanup step closes exactly the channels of
previously-held records whose identifier is absent from the reconciled
registry; in particular a held record whose id is still present —
because a fresh session replaced it — does not get its channel closed
by the cycle.  (Distinct held records are assumed to own distinct
channels.) -/
theorem C10_cleanup_exact (env : DiscoverEnv) (old : RegMap)
    (targets : List CDPTarget) (id : String) (c : Cascade)
    (hmem : (id, c) ∈ old)
    (hnd : (List.map (fun p => p.2.cdp.wsId) old).Nodup) :
    c.cdp.wsId ∈ (discover env old targets).closedCleanup ↔
      mapHas (discover env old targets).newCascades id = false := by
  rw [discover_closedCleanup, discover_newCascades]
  constructor
  · intro h
    rcases List.mem_map.mp h with ⟨p, hpf, hpw⟩
    have hpold : p ∈ old := (List.mem_filter.mp hpf).1
    have hpq := (List.mem_filter.mp hpf).2
    have hpe : p = (id, c) := List.inj_on_of_nodup_map hnd hpold hmem hpw
    rw [hpe] at hpq
    simpa using hpq
  · intro h
    refine List.mem_map.mpr ⟨(id, c), List.mem_filter.mpr ⟨hmem, ?_⟩, rfl⟩
    simp [h]

/-- A held record at the collision id whose channel is not open: the
discovery cycle will replace it with a fresh session. -/
def oldCascC10 : Cascade :=
  { id := "1mo",
    cdp := { wsId := 5, wsOpen := false, contexts := [], rootContextId := none },
    metadata := { windowTitle := "w", chatTitle := "t", isActive := false, contextId := none },
    snapshot := none, css := "", snapshotHash := none }

def C10old : RegMap := [("1mo", oldCascC10)]

theorem C10_cleanup_exact_witness :
    oldCascC10.cdp.wsId ∉ (discover envC4 C10old [targetAa]).closedCleanup :=
  fun h =>
    absurd ((C10_cleanup_exact envC4 C10old [targetAa] "1mo" oldCascC10
      (by decide) (by decide)).mp h) (by decide)

end Monitor
